import Mathlib

/-!
Shallow embedding of `src/backend/app.py` (a FastAPI search → scrape →
chunk → summarize pipeline) together with theorems settling the
specification claims about it.

Conventions of the embedding:
* Python `str` values that get sliced or joined (page content, chunks,
  summaries) are modelled as `List Char`, matching Python's code-point
  indexing; identifier-like strings (topic, engine, urls, error details)
  are modelled as Lean `String`.
* Every outbound network interaction is abstracted as an explicit
  argument (an `Except`-valued oracle); each endpoint additionally
  reports how many upstream network requests it issued, so that
  "no network call is made" claims are statable.
* A raised `HTTPException(status, detail)` is modelled as
  `Except.error ⟨status, detail⟩`.
-/

/-- Model of `fastapi.HTTPException`: a raised HTTP error with status code
and detail message. -/
structure HTTPError where
  status : Nat
  detail : String
deriving DecidableEq, Repr

/-- Starlette renders `str(HTTPException(status, detail))` as
`"{status}: {detail}"`; used where `app.py` interpolates `str(e)`. -/
def httpErrStr (e : HTTPError) : String :=
  toString e.status ++ ": " ++ e.detail

/-- One `{"title": ..., "link": ...}` entry of the `articles` list built by
`search_topic`. -/
structure Article where
  title : String
  link : String
deriving DecidableEq, Repr

/-- One item of the Google custom-search JSON `items` array. -/
structure GoogleItem where
  title : String
  link : String
deriving DecidableEq, Repr

/-- One item of the Bing JSON `webPages.value` array. -/
structure BingItem where
  name : String
  url : String
deriving DecidableEq, Repr

/-- The parsed JSON body of a successful search-engine response:
`results.get("items", [])` and `results.get("webPages", {}).get("value", [])`,
with absent keys already defaulted to empty lists. -/
structure SearchJson where
  items : List GoogleItem
  webPagesValue : List BingItem
deriving DecidableEq, Repr

/-- The JSON value returned by the `/search` endpoint: either
`{"query", "engine", "articles"}` or `{"error": msg}`. -/
inductive SearchResponse where
  | ok (query : String) (engine : String) (articles : List Article)
  | error (msg : String)
deriving DecidableEq, Repr

/-- Model of the pydantic `SummarizeRequest` body (`app.py`): a single
`content` string. -/
structure SummarizeRequest where
  content : List Char
deriving DecidableEq, Repr

/-- The `{"summary": ...}` JSON returned by a successful `/summarize` call. -/
structure SummaryResponse where
  summary : List Char
deriving DecidableEq, Repr

/-- Model of one `message` object of an OpenAI chat-completion choice. -/
structure ChatMessage where
  content : List Char
deriving DecidableEq, Repr

/-- Model of one element of `response.choices`. -/
structure ChatChoice where
  message : ChatMessage
deriving DecidableEq, Repr

/-- Model of the OpenAI chat-completion response consumed by `summarize`:
only its `choices` list is inspected. -/
structure ChatResponse where
  choices : List ChatChoice
deriving DecidableEq, Repr

/-- The `{"url", "content"}` JSON returned by a successful `/scrape` call. -/
structure ScrapeOk where
  url : String
  content : List Char
deriving DecidableEq, Repr

/-- Outcome of the HTTP fetch + HTML parse performed by `scrape_url`,
abstracted per the spec's external-collaborator interface: a successful
fetch yields the list of `p.get_text(strip=True)` paragraph texts found by
BeautifulSoup; otherwise the httpx exception that was raised. -/
inductive FetchOutcome where
  | ok (p_list : List (List Char))
  | statusError (status : Nat) (msg : String)
  | requestError (msg : String)
deriving Repr

/-- Model of Python `range(start, stop, step)` (ascending case) as the list
of indices visited, via structural fuel; `stop - start` steps always
suffice because each iteration advances `start` by `step ≥ 1`. -/
def pyRangeGo (stop step : Nat) : Nat → Nat → List Nat
  | 0, _ => []
  | fuel + 1, start =>
    if start < stop then start :: pyRangeGo stop step fuel (start + step) else []

/-- Python `range(start, stop, step)` for a positive step. -/
def pyRange (start stop step : Nat) : List Nat :=
  pyRangeGo stop step (stop - start) start

/-- The chunking list comprehension of `search_scrape_summarize`
(`app.py` line 158): `[all_content[i:i + max_chunk_size] for i in
range(0, len(all_content), max_chunk_size)]`, with the Python slice
`s[i:i+m]` rendered as `(s.drop i).take m`. -/
def chunker (all_content : List Char) (max_chunk_size : Nat) : List (List Char) :=
  (pyRange 0 all_content.length max_chunk_size).map
    (fun i => (all_content.drop i).take max_chunk_size)

theorem pyRangeGo_fuel {stop step : Nat} (hstep : 0 < step) :
    ∀ fuel₁ fuel₂ start, stop - start ≤ fuel₁ → stop - start ≤ fuel₂ →
      pyRangeGo stop step fuel₁ start = pyRangeGo stop step fuel₂ start := by
  intro fuel₁
  induction fuel₁ with
  | zero =>
    intro fuel₂ start h₁ h₂
    cases fuel₂ with
    | zero => rfl
    | succ f =>
      simp only [pyRangeGo]
      rw [if_neg (by omega)]
  | succ f₁ ih =>
    intro fuel₂ start h₁ h₂
    cases fuel₂ with
    | zero =>
      simp only [pyRangeGo]
      rw [if_neg (by omega)]
    | succ f₂ =>
      simp only [pyRangeGo]
      by_cases h : start < stop
      · rw [if_pos h, if_pos h, ih f₂ (start + step) (by omega) (by omega)]
      · rw [if_neg h, if_neg h]

theorem pyRange_eq (start stop step : Nat) (hstep : 0 < step) :
    pyRange start stop step =
      if start < stop then start :: pyRange (start + step) stop step else [] := by
  by_cases h : start < stop
  · rw [if_pos h]
    show pyRangeGo stop step (stop - start) start = _
    have hs : stop - start = (stop - start - 1) + 1 := by omega
    rw [hs]
    simp only [pyRangeGo, if_pos h]
    congr 1
    exact pyRangeGo_fuel hstep _ _ _ (by omega) (by omega)
  · rw [if_neg h]
    show pyRangeGo stop step (stop - start) start = _
    have hs : stop - start = 0 := by omega
    rw [hs]
    rfl

theorem pyRangeGo_shift {stop step : Nat} (_hstep : 0 < step) :
    ∀ fuel start, pyRangeGo stop step fuel (start + step) =
      (pyRangeGo (stop - step) step fuel start).map (· + step) := by
  intro fuel
  induction fuel with
  | zero => intro start; rfl
  | succ f ih =>
    intro start
    simp only [pyRangeGo]
    by_cases h : start + step < stop
    · rw [if_pos h, if_pos (by omega), List.map_cons, ih (start + step)]
    · rw [if_neg h, if_neg (by omega), List.map_nil]

theorem pyRange_shift (start stop step : Nat) (hstep : 0 < step) :
    pyRange (start + step) stop step =
      (pyRange start (stop - step) step).map (· + step) := by
  show pyRangeGo stop step (stop - (start + step)) (start + step) =
    (pyRangeGo (stop - step) step (stop - step - start) start).map (· + step)
  rw [show stop - (start + step) = stop - step - start by omega]
  exact pyRangeGo_shift hstep _ _

theorem chunker_nil (m : Nat) : chunker [] m = [] := rfl

theorem chunker_cons (s : List Char) (m : Nat) (hm : 0 < m) (hs : s ≠ []) :
    chunker s m = s.take m :: chunker (s.drop m) m := by
  unfold chunker
  have hlen : 0 < s.length := List.length_pos.mpr hs
  rw [pyRange_eq 0 s.length m hm, if_pos hlen, List.map_cons, List.drop_zero]
  congr 1
  have hshift := pyRange_shift 0 s.length m hm
  simp only [Nat.zero_add] at hshift ⊢
  rw [hshift, List.map_map, List.length_drop]
  apply List.map_congr_left
  intro i _
  simp only [Function.comp_apply]
  rw [List.drop_drop, Nat.add_comm]

theorem chunker_flatten (m : Nat) (hm : 0 < m) :
    ∀ s : List Char, (chunker s m).flatten = s := by
  have main : ∀ n (s : List Char), s.length ≤ n → (chunker s m).flatten = s := by
    intro n
    induction n with
    | zero =>
      intro s hs
      rw [List.length_eq_zero.mp (show s.length = 0 by omega), chunker_nil]
      rfl
    | succ k ih =>
      intro s hs
      by_cases h : s = []
      · rw [h, chunker_nil]; rfl
      · rw [chunker_cons s m hm h, List.flatten_cons,
          ih (s.drop m) (by rw [List.length_drop]; omega),
          List.take_append_drop]
  intro s
  exact main s.length s le_rfl

theorem chunker_length_le (m : Nat) (hm : 0 < m) :
    ∀ s : List Char, ∀ c ∈ chunker s m, c.length ≤ m := by
  have main : ∀ n (s : List Char), s.length ≤ n → ∀ c ∈ chunker s m, c.length ≤ m := by
    intro n
    induction n with
    | zero =>
      intro s hs c hc
      rw [List.length_eq_zero.mp (show s.length = 0 by omega), chunker_nil] at hc
      exact absurd hc (List.not_mem_nil c)
    | succ k ih =>
      intro s hs c hc
      by_cases h : s = []
      · rw [h, chunker_nil] at hc
        exact absurd hc (List.not_mem_nil c)
      · rw [chunker_cons s m hm h] at hc
        rcases List.mem_cons.mp hc with h₁ | h₂
        · rw [h₁]; exact List.length_take_le m s
        · exact ih (s.drop m) (by rw [List.length_drop]; omega) c h₂
  intro s
  exact main s.length s le_rfl

theorem chunker_count (m : Nat) (hm : 0 < m) :
    ∀ s : List Char, s ≠ [] → (chunker s m).length = (s.length + m - 1) / m := by
  have main : ∀ n (s : List Char), s.length ≤ n → s ≠ [] →
      (chunker s m).length = (s.length + m - 1) / m := by
    intro n
    induction n with
    | zero =>
      intro s hs hne
      exact absurd (List.length_eq_zero.mp (show s.length = 0 by omega)) hne
    | succ k ih =>
      intro s hs hne
      rw [chunker_cons s m hm hne, List.length_cons]
      by_cases h : s.length ≤ m
      · have hdrop : s.drop m = [] := by
          rw [← List.length_eq_zero, List.length_drop]; omega
        rw [hdrop, chunker_nil]
        have hpos : 0 < s.length := List.length_pos.mpr hne
        have e₂ : s.length + m - 1 = (s.length - 1) + m := by omega
        rw [e₂, Nat.add_div_right _ hm,
          Nat.div_eq_of_lt (show s.length - 1 < m by omega)]
        rfl
      · have hdropne : s.drop m ≠ [] := by
          intro hd
          rw [← List.length_eq_zero] at hd
          rw [List.length_drop] at hd
          omega
        rw [ih (s.drop m) (by rw [List.length_drop]; omega) hdropne, List.length_drop]
        have e₁ : s.length - m + m - 1 = s.length - 1 := by omega
        have e₂ : s.length + m - 1 = (s.length - 1) + m := by omega
        rw [e₁, e₂, Nat.add_div_right _ hm]
  intro s
  exact main s.length s le_rfl

theorem chunker_chunk_pos (m : Nat) (hm : 0 < m) :
    ∀ s : List Char, ∀ c ∈ chunker s m, 0 < c.length := by
  have main : ∀ n (s : List Char), s.length ≤ n → ∀ c ∈ chunker s m, 0 < c.length := by
    intro n
    induction n with
    | zero =>
      intro s hs c hc
      rw [List.length_eq_zero.mp (show s.length = 0 by omega), chunker_nil] at hc
      exact absurd hc (List.not_mem_nil c)
    | succ k ih =>
      intro s hs c hc
      by_cases h : s = []
      · rw [h, chunker_nil] at hc
        exact absurd hc (List.not_mem_nil c)
      · rw [chunker_cons s m hm h] at hc
        rcases List.mem_cons.mp hc with h₁ | h₂
        · rw [h₁, List.length_take]
          have : 0 < s.length := List.length_pos.mpr h
          omega
        · exact ih (s.drop m) (by rw [List.length_drop]; omega) c h₂
  intro s
  exact main s.length s le_rfl

/-- Embedding of the `/search` endpoint `search_topic` (`app.py`).
The single `async_client.get` + `raise_for_status` + `.json()` round trip is
abstracted as `net : Except String SearchJson` (a raised httpx exception is
`Except.error (str e)`).  Returns the JSON value produced together with the
number of outbound search-engine HTTP requests issued: the unsupported-engine
branch returns `{"error": ...}` before the request is sent (0 requests);
any raised exception is caught by the final `except` and returned as
`{"error": str(e)}`. -/
def search_topic (net : Except String SearchJson) (topic engine : String) :
    SearchResponse × Nat :=
  if engine = "google" ∨ engine = "bing" then
    match net with
    | Except.error e => (SearchResponse.error e, 1)
    | Except.ok results =>
      let articles :=
        if engine = "google" then
          results.items.map (fun item => Article.mk item.title item.link)
        else
          results.webPagesValue.map (fun item => Article.mk item.name item.url)
      (SearchResponse.ok topic engine articles, 1)
  else
    (SearchResponse.error "Unsupported search engine. Use 'google' or 'bing'.", 0)

/-- Embedding of the `/scrape` endpoint `scrape_url` (`app.py`): on a
successful fetch, keeps the paragraphs whose text is longer than 100
characters, joins them with a newline, and raises
`HTTPException(400, "No readable content found on the page.")` when the join
is empty; `HTTPStatusError` and `RequestError` are re-raised as
`HTTPException`s with the upstream cause. -/
def scrape_url (fetched : FetchOutcome) (url : String) :
    Except HTTPError ScrapeOk :=
  match fetched with
  | FetchOutcome.ok p_list =>
    let filtered_p_list := p_list.filter (fun p => 100 < p.length)
    let extracted_content := List.intercalate ['\n'] filtered_p_list
    if extracted_content = [] then
      Except.error ⟨400, "No readable content found on the page."⟩
    else
      Except.ok ⟨url, extracted_content⟩
  | FetchOutcome.statusError status msg =>
    Except.error ⟨status, "HTTP error: " ++ msg⟩
  | FetchOutcome.requestError msg =>
    Except.error ⟨500, "Request failed: " ++ msg⟩

/-- Model of `asyncio.gather` over coroutines that may raise: if every task
succeeds the ordered list of results is returned; otherwise the earliest
failure is propagated and no partial list of results is produced. -/
def gather {E A : Type} : List (Except E A) → Except E (List A)
  | [] => Except.ok []
  | Except.error e :: _ => Except.error e
  | Except.ok a :: rest => (gather rest).map (fun l => a :: l)

/-- Embedding of `scrape_multiple_urls` (`app.py`): fan out `scrape_url`
over the urls (the per-url fetch outcome is supplied by `fetchEnv`), gather
them, and extract `result["content"]` from each result. -/
def scrape_multiple_urls (fetchEnv : String → FetchOutcome) (urls : List String) :
    Except HTTPError (List (List Char)) :=
  let tasks := urls.map (fun url => scrape_url (fetchEnv url) url)
  match gather tasks with
  | Except.error e => Except.error e
  | Except.ok results => Except.ok (results.map ScrapeOk.content)

/-- Embedding of the `/summarize` endpoint `summarize` (`app.py`).  The
OpenAI chat-completion round trip is abstracted as
`llm : List Char → Except String ChatResponse`, applied to the request
content; the second component counts the upstream requests issued.  Empty
content raises `HTTPException(400, ...)` before the request is built (0
upstream calls); an upstream exception is caught and re-raised as a 500;
otherwise the summary is `response.choices[0].message.content` when
`response.choices` is non-empty and the literal `"No summary available."`
otherwise. -/
def summarize (llm : List Char → Except String ChatResponse)
    (request : SummarizeRequest) :
    Except HTTPError SummaryResponse × Nat :=
  let content := request.content
  if content = [] then
    (Except.error ⟨400, "Please provide content to summarize."⟩, 0)
  else
    match llm content with
    | Except.error e =>
      (Except.error ⟨500, "An error occurred: " ++ e⟩, 1)
    | Except.ok response =>
      let summary : List Char :=
        match response.choices with
        | [] => "No summary available.".data
        | choice :: _ => choice.message.content
      (Except.ok ⟨summary⟩, 1)

/-- Network/call accounting for one `search_scrape_summarize` request:
`searchNet` = outbound search-engine requests, `fetchNet` = page-fetch
requests launched (`scrape_url` issues exactly one each), `sumCalls` =
invocations of the `summarize` endpoint function, `llmNet` = outbound
chat-completion requests. -/
structure Counts where
  searchNet : Nat
  fetchNet : Nat
  sumCalls : Nat
  llmNet : Nat
deriving DecidableEq, Repr

/-- Embedding of the `/search_scrape_summarize` endpoint (`app.py`).
Mirrors the straight-line body inside its `try`: search, take the first 3
article links, scrape them, join with a newline, chunk at 3000, summarize
each chunk, join the chunk summaries with a space, and summarize once more;
any exception `e` raised inside the `try` (including the `KeyError('articles')`
from indexing an `{"error": ...}` search response, whose `str` is
`"'articles'"`) is caught and re-raised as
`HTTPException(500, "An error occurred: " + str(e))`. -/
def search_scrape_summarize (net : Except String SearchJson)
    (fetchEnv : String → FetchOutcome)
    (llm : List Char → Except String ChatResponse)
    (topic engine : String) :
    Except HTTPError SummaryResponse × Counts :=
  let articles_response := search_topic net topic engine
  match articles_response.1 with
  | SearchResponse.error _ =>
    (Except.error ⟨500, "An error occurred: " ++ "'articles'"⟩,
      ⟨articles_response.2, 0, 0, 0⟩)
  | SearchResponse.ok _ _ articles =>
    let urls := (articles.take 3).map Article.link
    match scrape_multiple_urls fetchEnv urls with
    | Except.error e =>
      (Except.error ⟨500, "An error occurred: " ++ httpErrStr e⟩,
        ⟨articles_response.2, urls.length, 0, 0⟩)
    | Except.ok contents =>
      let all_content := List.intercalate ['\n'] contents
      let chunks := chunker all_content 3000
      let summaries := chunks.map (fun chunk => summarize llm ⟨chunk⟩)
      let mapNet := (summaries.map Prod.snd).sum
      match gather (summaries.map Prod.fst) with
      | Except.error e =>
        (Except.error ⟨500, "An error occurred: " ++ httpErrStr e⟩,
          ⟨articles_response.2, urls.length, chunks.length, mapNet⟩)
      | Except.ok summaries_ok =>
        let chunk_summaries := summaries_ok.map SummaryResponse.summary
        let final_summary_request : SummarizeRequest :=
          ⟨List.intercalate [' '] chunk_summaries⟩
        let fres := summarize llm final_summary_request
        match fres.1 with
        | Except.error e =>
          (Except.error ⟨500, "An error occurred: " ++ httpErrStr e⟩,
            ⟨articles_response.2, urls.length, chunks.length + 1, mapNet + fres.2⟩)
        | Except.ok final_summary =>
          (Except.ok final_summary,
            ⟨articles_response.2, urls.length, chunks.length + 1, mapNet + fres.2⟩)

theorem intercalate_cons_head (sep y : List Char) (ys : List (List Char)) :
    ∃ t, List.intercalate sep (y :: ys) = y ++ t := by
  cases ys with
  | nil => exact ⟨[], by simp [List.intercalate]⟩
  | cons z zs =>
    exact ⟨sep ++ List.intercalate sep (z :: zs),
      by simp [List.intercalate, List.intersperse]⟩

theorem intercalate_ne_nil_of_head_ne_nil (sep y : List Char)
    (ys : List (List Char)) (hy : y ≠ []) :
    List.intercalate sep (y :: ys) ≠ [] := by
  obtain ⟨t, ht⟩ := intercalate_cons_head sep y ys
  rw [ht]
  intro hcontra
  exact hy (List.append_eq_nil.mp hcontra).1

/-- C1. Chunker round-trip: for every string `s` and positive
`maxChunkSize` `m`, concatenating the chunks produced by the chunking
comprehension of `search_scrape_summarize` reproduces `s` exactly (hence
the chunks are contiguous and non-overlapping), each chunk has length at
most `m`, a non-empty `s` yields exactly `⌈len(s)/m⌉` chunks, and the
empty string yields zero chunks. -/
theorem chunker_roundtrip (s : List Char) (m : Nat) (hm : 0 < m) :
    (chunker s m).flatten = s ∧
    (∀ c ∈ chunker s m, c.length ≤ m) ∧
    (s ≠ [] → (chunker s m).length = (s.length + m - 1) / m) ∧
    chunker ([] : List Char) m = [] :=
  ⟨chunker_flatten m hm s, chunker_length_le m hm s,
    chunker_count m hm s, chunker_nil m⟩

/-- Witness for C1 at `s = "abcdefg"`, `m = 3`. -/
theorem chunker_roundtrip_witness :
    0 < 3 ∧
    ((chunker "abcdefg".data 3).flatten = "abcdefg".data ∧
      (∀ c ∈ chunker "abcdefg".data 3, c.length ≤ 3) ∧
      ("abcdefg".data ≠ [] →
        (chunker "abcdefg".data 3).length = ("abcdefg".data.length + 3 - 1) / 3) ∧
      chunker ([] : List Char) 3 = []) :=
  ⟨by decide, chunker_roundtrip "abcdefg".data 3 (by decide)⟩

/-- C3. For every query and every engine value other than the two
supported ones, `search_topic` produces the unsupported-engine error
response and issues zero outbound network requests. -/
theorem search_unsupported_engine (net : Except String SearchJson)
    (topic engine : String)
    (h₁ : engine ≠ "google") (h₂ : engine ≠ "bing") :
    search_topic net topic engine =
      (SearchResponse.error "Unsupported search engine. Use 'google' or 'bing'.", 0) := by
  unfold search_topic
  rw [if_neg]
  intro hcontra
  rcases hcontra with h | h
  · exact h₁ h
  · exact h₂ h

/-- Witness for C3 at `engine = "duckduckgo"`. -/
theorem search_unsupported_engine_witness :
    ("duckduckgo" : String) ≠ "google" ∧ ("duckduckgo" : String) ≠ "bing" ∧
    search_topic (Except.ok ⟨[], []⟩) "t" "duckduckgo" =
      (SearchResponse.error "Unsupported search engine. Use 'google' or 'bing'.", 0) :=
  ⟨by decide, by decide,
    search_unsupported_engine (Except.ok ⟨[], []⟩) "t" "duckduckgo"
      (by decide) (by decide)⟩

/-- C4. For every search call with a supported engine in which the
upstream HTTP request fails (non-2xx raised by `raise_for_status` or a
network error), `search_topic` returns the error response carrying the
upstream detail `str(e)` — never a success-shaped
`{"query", "engine", "articles"}` value. -/
theorem search_http_failure (topic engine : String) (e : String)
    (h : engine = "google" ∨ engine = "bing") :
    search_topic (Except.error e) topic engine = (SearchResponse.error e, 1) := by
  unfold search_topic
  rw [if_pos h]

/-- Witness for C4 at `engine = "google"`, upstream detail `"boom"`. -/
theorem search_http_failure_witness :
    (("google" : String) = "google" ∨ ("google" : String) = "bing") ∧
    search_topic (Except.error "boom") "t" "google" = (SearchResponse.error "boom", 1) :=
  ⟨Or.inl rfl, search_http_failure "t" "google" "boom" (Or.inl rfl)⟩

/-- C6. PageExtractor threshold and join, on a successfully fetched page
whose paragraph texts are `p_list`: paragraphs of stripped length at most
100 are excluded — if all of them are, `scrape_url` fails with the 400
"No readable content found on the page." error; a single paragraph of
exactly 101 characters is retained and returned as the content; and
whenever some paragraph is longer than 100, the content is the retained
paragraphs joined in document order with a newline separator. -/
theorem scrape_threshold (url : String) (p_list : List (List Char)) :
    ((∀ p ∈ p_list, p.length ≤ 100) →
      scrape_url (FetchOutcome.ok p_list) url =
        Except.error ⟨400, "No readable content found on the page."⟩) ∧
    (∀ p : List Char, p.length = 101 →
      scrape_url (FetchOutcome.ok [p]) url = Except.ok ⟨url, p⟩) ∧
    ((∃ p ∈ p_list, 100 < p.length) →
      scrape_url (FetchOutcome.ok p_list) url =
        Except.ok ⟨url, List.intercalate ['\n']
          (p_list.filter (fun p => 100 < p.length))⟩) := by
  refine ⟨?_, ?_, ?_⟩
  · intro hall
    have hfilter : p_list.filter (fun p => decide (100 < p.length)) = [] := by
      rw [List.filter_eq_nil_iff]
      intro p hp
      simp only [decide_eq_true_eq]
      exact Nat.not_lt.mpr (hall p hp)
    simp only [scrape_url, hfilter]
    rfl
  · intro p hp
    have hpne : p ≠ [] := by
      intro hcontra
      rw [hcontra] at hp
      simp at hp
    have hfilter : [p].filter (fun q => decide (100 < q.length)) = [p] := by
      simp [List.filter, hp]
    have hinter : List.intercalate ['\n'] [p] = p := by
      simp [List.intercalate]
    simp only [scrape_url, hfilter, hinter]
    rw [if_neg hpne]
  · intro hex
    obtain ⟨p, hp, hlen⟩ := hex
    have hmem : p ∈ p_list.filter (fun q => decide (100 < q.length)) := by
      rw [List.mem_filter]
      exact ⟨hp, by simp only [decide_eq_true_eq]; omega⟩
    obtain ⟨y, ys, hcons⟩ := List.exists_cons_of_ne_nil (List.ne_nil_of_mem hmem)
    have hyne : y ≠ [] := by
      have hy : y ∈ p_list.filter (fun q => decide (100 < q.length)) := by
        rw [hcons]
        exact List.mem_cons_self y ys
      rw [List.mem_filter] at hy
      have hylen := hy.2
      simp only [decide_eq_true_eq] at hylen
      intro hcontra
      rw [hcontra] at hylen
      simp at hylen
    have hne : List.intercalate ['\n']
        (p_list.filter (fun q => decide (100 < q.length))) ≠ [] := by
      rw [hcons]
      exact intercalate_ne_nil_of_head_ne_nil ['\n'] y ys hyne
    simp only [scrape_url]
    rw [if_neg hne]

/-- Witness for C6: a page of two short paragraphs errors; a page with one
101-character paragraph returns it; a mixed page joins the long ones. -/
theorem scrape_threshold_witness :
    ((∀ p ∈ [List.replicate 100 'a', List.replicate 50 'b'], p.length ≤ 100) →
      scrape_url (FetchOutcome.ok [List.replicate 100 'a', List.replicate 50 'b']) "u" =
        Except.error ⟨400, "No readable content found on the page."⟩) ∧
    (∀ p : List Char, p.length = 101 →
      scrape_url (FetchOutcome.ok [p]) "u" = Except.ok ⟨"u", p⟩) ∧
    ((∃ p ∈ [List.replicate 100 'a', List.replicate 50 'b'], 100 < p.length) →
      scrape_url (FetchOutcome.ok [List.replicate 100 'a', List.replicate 50 'b']) "u" =
        Except.ok ⟨"u", List.intercalate ['\n']
          ([List.replicate 100 'a', List.replicate 50 'b'].filter
            (fun p => 100 < p.length))⟩) ∧
    (∀ p ∈ [List.replicate 100 'a', List.replicate 50 'b'], p.length ≤ 100) ∧
    (List.replicate 101 'c').length = 101 :=
  ⟨(scrape_threshold "u" [List.replicate 100 'a', List.replicate 50 'b']).1,
    (scrape_threshold "u" [List.replicate 100 'a', List.replicate 50 'b']).2.1,
    (scrape_threshold "u" [List.replicate 100 'a', List.replicate 50 'b']).2.2,
    by decide, by decide⟩

/-- C7. Summarizing the empty string fails with the 400
"Please provide content to summarize." error, and zero upstream
language-model requests are issued, whatever the upstream would answer. -/
theorem summarize_empty_input (llm : List Char → Except String ChatResponse) :
    summarize llm ⟨[]⟩ =
      (Except.error ⟨400, "Please provide content to summarize."⟩, 0) := rfl

/-- C9 counterexample: an upstream response whose `choices` list is empty
(the claim's "malformed response") makes `summarize` return a *success*
value `{"summary": "No summary available."}` after one upstream request —
it does not fail with any error. -/
theorem summarize_empty_choices_counterexample :
    summarize (fun _ => Except.ok ⟨[]⟩) ⟨['x']⟩ =
      (Except.ok ⟨"No summary available.".data⟩, 1) := rfl

/-- C9 amended: for non-empty input, an upstream *exception* (auth, rate
limit, network) makes `summarize` fail with the 500 error carrying the
upstream detail, but an upstream response with an empty `choices` list is
answered with the success value `{"summary": "No summary available."}`. -/
theorem summarize_upstream_amended
    (llm : List Char → Except String ChatResponse)
    (content : List Char) (hne : content ≠ []) :
    (∀ e, llm content = Except.error e →
      summarize llm ⟨content⟩ =
        (Except.error ⟨500, "An error occurred: " ++ e⟩, 1)) ∧
    (∀ response, llm content = Except.ok response → response.choices = [] →
      summarize llm ⟨content⟩ =
        (Except.ok ⟨"No summary available.".data⟩, 1)) := by
  constructor
  · intro e he
    simp only [summarize, if_neg hne, he]
  · intro response hresp hchoices
    simp only [summarize, if_neg hne, hresp, hchoices]

/-- Witness for C9's amended claim at `content = ['x']`. -/
theorem summarize_upstream_amended_witness :
    (['x'] : List Char) ≠ [] ∧
    ((∀ e, (fun (_ : List Char) => (Except.error "boom" : Except String ChatResponse)) ['x'] = Except.error e →
      summarize (fun _ => Except.error "boom") ⟨['x']⟩ =
        (Except.error ⟨500, "An error occurred: " ++ e⟩, 1)) ∧
    (∀ response, (fun (_ : List Char) => (Except.error "boom" : Except String ChatResponse)) ['x'] = Except.ok response → response.choices = [] →
      summarize (fun _ => Except.error "boom") ⟨['x']⟩ =
        (Except.ok ⟨"No summary available.".data⟩, 1))) :=
  ⟨by decide, summarize_upstream_amended (fun _ => Except.error "boom") ['x'] (by decide)⟩

theorem gather_error {E A : Type} (l : List (Except E A))
    (h : ∃ x ∈ l, ∃ e, x = Except.error e) :
    ∃ e, gather l = Except.error e := by
  induction l with
  | nil =>
    obtain ⟨x, hx, _⟩ := h
    exact absurd hx (List.not_mem_nil x)
  | cons x rest ih =>
    cases x with
    | error e => exact ⟨e, rfl⟩
    | ok a =>
      obtain ⟨y, hy, e, hye⟩ := h
      rcases List.mem_cons.mp hy with h₁ | h₂
      · rw [h₁] at hye
        exact absurd hye (by simp)
      · obtain ⟨e, hge⟩ := ih ⟨y, h₂, e, hye⟩
        refine ⟨e, ?_⟩
        show (gather rest).map (fun l => a :: l) = Except.error e
        rw [hge]
        rfl

/-- C8. Fail-fast fan-out: for every list of URLs, if the fetch of any one
URL fails, then `scrape_multiple_urls` fails as a whole, propagating a
failure — it never returns a partial list of successful contents. -/
theorem scrape_fail_fast (fetchEnv : String → FetchOutcome)
    (urls : List String)
    (h : ∃ u ∈ urls, ∃ e, scrape_url (fetchEnv u) u = Except.error e) :
    (∃ e, scrape_multiple_urls fetchEnv urls = Except.error e) ∧
    ∀ contents, scrape_multiple_urls fetchEnv urls ≠ Except.ok contents := by
  obtain ⟨u, hu, e, hue⟩ := h
  have htask : ∃ x ∈ urls.map (fun url => scrape_url (fetchEnv url) url),
      ∃ e, x = Except.error e :=
    ⟨scrape_url (fetchEnv u) u,
      List.mem_map_of_mem (fun url => scrape_url (fetchEnv url) url) hu, e, hue⟩
  obtain ⟨e', hg⟩ := gather_error _ htask
  have hres : scrape_multiple_urls fetchEnv urls = Except.error e' := by
    simp only [scrape_multiple_urls, hg]
  exact ⟨⟨e', hres⟩, fun contents hcontra => by
    rw [hres] at hcontra
    exact absurd hcontra (by simp)⟩

/-- Witness for C8: 3 URLs where the 2nd fetch fails with a 404; the whole
fan-out returns a failure, not 2 successes plus 1 error record. -/
theorem scrape_fail_fast_witness :
    (∃ u ∈ ["a", "b", "c"], ∃ e,
      scrape_url ((fun v => if v = "b" then FetchOutcome.statusError 404 "not found"
        else FetchOutcome.ok [List.replicate 101 'z']) u) u = Except.error e) ∧
    ((∃ e, scrape_multiple_urls
        (fun v => if v = "b" then FetchOutcome.statusError 404 "not found"
          else FetchOutcome.ok [List.replicate 101 'z']) ["a", "b", "c"] =
        Except.error e) ∧
      ∀ contents, scrape_multiple_urls
        (fun v => if v = "b" then FetchOutcome.statusError 404 "not found"
          else FetchOutcome.ok [List.replicate 101 'z']) ["a", "b", "c"] ≠
        Except.ok contents) :=
  ⟨⟨"b", by decide, ⟨404, "HTTP error: not found"⟩, rfl⟩,
    scrape_fail_fast _ ["a", "b", "c"]
      ⟨"b", by decide, ⟨404, "HTTP error: not found"⟩, rfl⟩⟩

/-- C10. Implicit safety: for a non-empty concatenated blob, every chunk
produced by the pipeline's chunking step (`chunker · 3000`) is non-empty
and of length at most 3000; consequently each map-stage `summarize` call
proceeds past the empty-input check — it issues exactly one upstream
request and can never produce the empty-input 400 error. -/
theorem chunk_map_stage_safe (blob : List Char) (_hblob : blob ≠ []) :
    ∀ c ∈ chunker blob 3000,
      (1 ≤ c.length ∧ c.length ≤ 3000) ∧
      ∀ llm, (summarize llm ⟨c⟩).2 = 1 ∧
        (summarize llm ⟨c⟩).1 ≠
          Except.error ⟨400, "Please provide content to summarize."⟩ := by
  intro c hc
  have hpos : 0 < c.length := chunker_chunk_pos 3000 (by omega) blob c hc
  have hle : c.length ≤ 3000 := chunker_length_le 3000 (by omega) blob c hc
  have hcne : c ≠ [] := by
    intro hcontra
    rw [hcontra] at hpos
    simp at hpos
  refine ⟨⟨hpos, hle⟩, fun llm => ?_⟩
  constructor
  · simp only [summarize, if_neg hcne]
    cases llm c <;> rfl
  · simp only [summarize, if_neg hcne]
    cases hllm : llm c with
    | error e =>
      intro hcontra
      simp only [Except.error.injEq, HTTPError.mk.injEq] at hcontra
      omega
    | ok response =>
      intro hcontra
      simp at hcontra

/-- Witness for C10 at a 5-character blob (a single chunk of length 5). -/
theorem chunk_map_stage_safe_witness :
    List.replicate 5 'a' ≠ ([] : List Char) ∧
    (∀ c ∈ chunker (List.replicate 5 'a') 3000,
      (1 ≤ c.length ∧ c.length ≤ 3000) ∧
      ∀ llm, (summarize llm ⟨c⟩).2 = 1 ∧
        (summarize llm ⟨c⟩).1 ≠
          Except.error ⟨400, "Please provide content to summarize."⟩) :=
  ⟨by decide, chunk_map_stage_safe (List.replicate 5 'a') (by decide)⟩

/-- C5 counterexample: a search that succeeds with zero results
(`items = []`) does not short-circuit with a NoResultsFound error: the
pipeline reaches the reduce stage, invokes `summarize` once on the empty
joined blob (`sumCalls = 1`), and fails with the 500-wrapped empty-input
error "An error occurred: 400: Please provide content to summarize." —
there is no NoResultsFound error kind anywhere in the code. -/
theorem pipeline_empty_search_counterexample :
    search_scrape_summarize (Except.ok ⟨[], []⟩)
      (fun _ => FetchOutcome.requestError "unreachable")
      (fun _ => Except.ok ⟨[]⟩) "t" "google" =
      (Except.error ⟨500, "An error occurred: 400: Please provide content to summarize."⟩,
        ⟨1, 0, 1, 0⟩) := by
  have h : ("An error occurred: " ++
      httpErrStr ⟨400, "Please provide content to summarize."⟩ : String) =
      "An error occurred: 400: Please provide content to summarize." := by decide
  rw [← h]
  rfl

/-- C5 amended: for every topic for which the search stage succeeds with
zero results, the pipeline run fails — but with the 500-wrapped
empty-input InvalidArgument error raised by the reduce-stage `summarize`
call on the empty blob, not with a NoResultsFound error: zero page
fetches and zero upstream language-model requests are made, yet the
summarizer *is* invoked once before the failure. -/
theorem pipeline_empty_search_amended (net : Except String SearchJson)
    (fetchEnv : String → FetchOutcome)
    (llm : List Char → Except String ChatResponse)
    (topic engine q eng : String)
    (h : (search_topic net topic engine).1 = SearchResponse.ok q eng []) :
    search_scrape_summarize net fetchEnv llm topic engine =
      (Except.error ⟨500, "An error occurred: " ++
          httpErrStr ⟨400, "Please provide content to summarize."⟩⟩,
        ⟨(search_topic net topic engine).2, 0, 1, 0⟩) := by
  simp only [search_scrape_summarize, h]
  rfl

/-- Witness for C5's amended claim at a concrete zero-result search. -/
theorem pipeline_empty_search_amended_witness :
    (search_topic (Except.ok ⟨[], []⟩) "t" "google").1 =
      SearchResponse.ok "t" "google" [] ∧
    search_scrape_summarize (Except.ok ⟨[], []⟩)
      (fun _ => FetchOutcome.requestError "unreachable")
      (fun _ => Except.ok ⟨[]⟩) "t" "google" =
      (Except.error ⟨500, "An error occurred: " ++
          httpErrStr ⟨400, "Please provide content to summarize."⟩⟩,
        ⟨(search_topic (Except.ok ⟨[], []⟩) "t" "google").2, 0, 1, 0⟩) :=
  ⟨rfl, pipeline_empty_search_amended (Except.ok ⟨[], []⟩)
    (fun _ => FetchOutcome.requestError "unreachable")
    (fun _ => Except.ok ⟨[]⟩) "t" "google" "t" "google" rfl⟩

/-- C2. Pipeline composition: whenever the search stage succeeds, the
orchestrator takes the first 3 article links, fetches their contents, and
— provided the fan-out fetch, the map-stage chunk summaries (over the
newline-joined blob chunked at 3000) and the reduce-stage summary all
succeed — returns exactly the reduce-stage summary of the space-joined
chunk summaries, having invoked the summarizer once per chunk plus
exactly once more, and having fetched exactly the selected links. -/
theorem pipeline_composition (net : Except String SearchJson)
    (fetchEnv : String → FetchOutcome)
    (llm : List Char → Except String ChatResponse)
    (topic engine q eng : String) (articles : List Article)
    (contents : List (List Char)) (summaries_ok : List SummaryResponse)
    (s : SummaryResponse)
    (hsearch : (search_topic net topic engine).1 =
      SearchResponse.ok q eng articles)
    (hfetch : scrape_multiple_urls fetchEnv ((articles.take 3).map Article.link) =
      Except.ok contents)
    (hmap : gather (((chunker (List.intercalate ['\n'] contents) 3000).map
        (fun chunk => summarize llm ⟨chunk⟩)).map Prod.fst) =
      Except.ok summaries_ok)
    (hreduce : (summarize llm ⟨List.intercalate [' ']
        (summaries_ok.map SummaryResponse.summary)⟩).1 = Except.ok s) :
    (search_scrape_summarize net fetchEnv llm topic engine).1 = Except.ok s ∧
    (search_scrape_summarize net fetchEnv llm topic engine).2.sumCalls =
      (chunker (List.intercalate ['\n'] contents) 3000).length + 1 ∧
    (search_scrape_summarize net fetchEnv llm topic engine).2.fetchNet =
      ((articles.take 3).map Article.link).length := by
  have heq : search_scrape_summarize net fetchEnv llm topic engine =
      (Except.ok s,
        ⟨(search_topic net topic engine).2,
          ((articles.take 3).map Article.link).length,
          (chunker (List.intercalate ['\n'] contents) 3000).length + 1,
          (((chunker (List.intercalate ['\n'] contents) 3000).map
            (fun chunk => summarize llm ⟨chunk⟩)).map Prod.snd).sum +
            (summarize llm ⟨List.intercalate [' ']
              (summaries_ok.map SummaryResponse.summary)⟩).2⟩) := by
    simp only [search_scrape_summarize, hsearch, hfetch, hmap, hreduce]
  rw [heq]
  exact ⟨rfl, rfl, rfl⟩

/-- Witness for C2: one Google result, a page with one 101-character
paragraph, and a language model that always answers with one choice. -/
theorem pipeline_composition_witness :
    ((search_topic (Except.ok ⟨[⟨"T", "u"⟩], []⟩) "t" "google").1 =
      SearchResponse.ok "t" "google" [⟨"T", "u"⟩]) ∧
    (scrape_multiple_urls (fun _ => FetchOutcome.ok [List.replicate 101 'a'])
      (([(⟨"T", "u"⟩ : Article)].take 3).map Article.link) =
      Except.ok [List.replicate 101 'a']) ∧
    (gather (((chunker (List.intercalate ['\n'] [List.replicate 101 'a']) 3000).map
        (fun chunk => summarize
          (fun _ => Except.ok ⟨[⟨⟨['s']⟩⟩]⟩) ⟨chunk⟩)).map Prod.fst) =
      Except.ok [⟨['s']⟩]) ∧
    ((summarize (fun _ => Except.ok ⟨[⟨⟨['s']⟩⟩]⟩) ⟨List.intercalate [' ']
        ([(⟨['s']⟩ : SummaryResponse)].map SummaryResponse.summary)⟩).1 =
      Except.ok ⟨['s']⟩) ∧
    ((search_scrape_summarize (Except.ok ⟨[⟨"T", "u"⟩], []⟩)
        (fun _ => FetchOutcome.ok [List.replicate 101 'a'])
        (fun _ => Except.ok ⟨[⟨⟨['s']⟩⟩]⟩) "t" "google").1 = Except.ok ⟨['s']⟩ ∧
      (search_scrape_summarize (Except.ok ⟨[⟨"T", "u"⟩], []⟩)
        (fun _ => FetchOutcome.ok [List.replicate 101 'a'])
        (fun _ => Except.ok ⟨[⟨⟨['s']⟩⟩]⟩) "t" "google").2.sumCalls =
        (chunker (List.intercalate ['\n'] [List.replicate 101 'a']) 3000).length + 1 ∧
      (search_scrape_summarize (Except.ok ⟨[⟨"T", "u"⟩], []⟩)
        (fun _ => FetchOutcome.ok [List.replicate 101 'a'])
        (fun _ => Except.ok ⟨[⟨⟨['s']⟩⟩]⟩) "t" "google").2.fetchNet =
        (([(⟨"T", "u"⟩ : Article)].take 3).map Article.link).length) :=
  ⟨rfl, rfl, rfl, rfl,
    pipeline_composition (Except.ok ⟨[⟨"T", "u"⟩], []⟩)
      (fun _ => FetchOutcome.ok [List.replicate 101 'a'])
      (fun _ => Except.ok ⟨[⟨⟨['s']⟩⟩]⟩) "t" "google" "t" "google"
      [⟨"T", "u"⟩] [List.replicate 101 'a'] [⟨['s']⟩] ⟨['s']⟩
      rfl rfl rfl rfl⟩
